import Mathlib

/-!
Verification of Gafaelfawr specification claims against a shallow embedding
of the repository's source.

The embedding covers:
* `src/gafaelfawr/exceptions.py` — the validation-error and OAuth-error
  hierarchies (C4, C5);
* `src/gafaelfawr/constants.py` — the actor and username regexes (C8);
* `src/gafaelfawr/models/link.py` — the Link header parser (C10);
* definitions marked "Modelled from the spec" for subsystems whose code is
  not among the provided source files (the /auth handler, the admin service,
  the logging-context middleware and the InfluxDB token issuer: only their
  tests are provided), faithful to the words of the specification (C1, C2,
  C3, C6, C7, C9).
-/

namespace Gafaelfawr

/-! ## Embedding of src/gafaelfawr/exceptions.py -/

/-- HTTP status constant as imported from fastapi. -/
def HTTP_422_UNPROCESSABLE_ENTITY : Nat := 422

/-- HTTP status constant as imported from fastapi. -/
def HTTP_403_FORBIDDEN : Nat := 403

/-- HTTP status constant as imported from fastapi. -/
def HTTP_404_NOT_FOUND : Nat := 404

/-- HTTP status constant as imported from fastapi. -/
def HTTP_400_BAD_REQUEST : Nat := 400

/-- HTTP status constant as imported from fastapi. -/
def HTTP_401_UNAUTHORIZED : Nat := 401

/-- `ErrorLocation`: the request component that triggered a `ValidationError`. -/
inductive ErrorLocation where
  | body
  | header
  | path
  | query
deriving DecidableEq

/-- The string value of each `ErrorLocation` enum member. -/
def ErrorLocation.value : ErrorLocation → String
  | .body => "body"
  | .header => "header"
  | .path => "path"
  | .query => "query"

/-- One `ValidationError` instance: the class attributes `error` (the
``type`` field of the error message) and `status_code`, together with the
instance attributes `message`, `location` and `field` set by the
constructors below. -/
structure ValidationError where
  error : String
  status_code : Nat
  message : String
  location : ErrorLocation
  field : String
deriving DecidableEq

/-- A value of Python type `Dict[str, Union[List[str], str]]` with insertion
order preserved, as `ValidationError.to_dict` returns. -/
abbrev ErrorDict := List (String × (Sum (List String) String))

/-- `ValidationError.to_dict`: the dictionary passed as the `detail`
parameter of the HTTP error response. -/
def ValidationError.to_dict (e : ValidationError) : ErrorDict :=
  [("loc", Sum.inl [e.location.value, e.field]),
   ("msg", Sum.inr e.message),
   ("type", Sum.inr e.error)]

/-- `DuplicateTokenNameError(message)`. -/
def DuplicateTokenNameError (message : String) : ValidationError :=
  { error := "duplicate_token_name", status_code := HTTP_422_UNPROCESSABLE_ENTITY,
    message := message, location := ErrorLocation.body, field := "token_name" }

/-- `InvalidCSRFError(message)`: overrides `status_code` with 403. -/
def InvalidCSRFError (message : String) : ValidationError :=
  { error := "invalid_csrf", status_code := HTTP_403_FORBIDDEN,
    message := message, location := ErrorLocation.header, field := "X-CSRF-Token" }

/-- `InvalidCursorError(message)`. -/
def InvalidCursorError (message : String) : ValidationError :=
  { error := "invalid_cursor", status_code := HTTP_422_UNPROCESSABLE_ENTITY,
    message := message, location := ErrorLocation.query, field := "cursor" }

/-- `InvalidExpiresError(message)`. -/
def InvalidExpiresError (message : String) : ValidationError :=
  { error := "invalid_expires", status_code := HTTP_422_UNPROCESSABLE_ENTITY,
    message := message, location := ErrorLocation.body, field := "expires" }

/-- `InvalidIPAddressError(message)`. -/
def InvalidIPAddressError (message : String) : ValidationError :=
  { error := "invalid_ip_address", status_code := HTTP_422_UNPROCESSABLE_ENTITY,
    message := message, location := ErrorLocation.query, field := "ip_address" }

/-- `InvalidDelegateToError(message)`. -/
def InvalidDelegateToError (message : String) : ValidationError :=
  { error := "invalid_delegate_to", status_code := HTTP_422_UNPROCESSABLE_ENTITY,
    message := message, location := ErrorLocation.query, field := "delegate_to" }

/-- `InvalidReturnURLError(message, field)`: the only subclass whose
constructor takes the field name as a parameter. -/
def InvalidReturnURLError (message : String) (field : String) : ValidationError :=
  { error := "invalid_return_url", status_code := HTTP_422_UNPROCESSABLE_ENTITY,
    message := message, location := ErrorLocation.query, field := field }

/-- `InvalidScopesError(message)`. -/
def InvalidScopesError (message : String) : ValidationError :=
  { error := "invalid_scopes", status_code := HTTP_422_UNPROCESSABLE_ENTITY,
    message := message, location := ErrorLocation.body, field := "scopes" }

/-- `NotFoundError`: overrides `status_code` with 404 and keeps the base
constructor taking location and field. -/
def NotFoundError (message : String) (location : ErrorLocation) (field : String) :
    ValidationError :=
  { error := "not_found", status_code := HTTP_404_NOT_FOUND,
    message := message, location := location, field := field }

/-- The OAuth error class hierarchy rooted at `OAuthError`.  Each
constructor stands for one class of `exceptions.py`. -/
inductive OAuthErrorClass where
  | OAuthError
  | InvalidClientError
  | InvalidGrantError
  | UnsupportedGrantTypeError
  | OAuthBearerError
  | InvalidRequestError
  | InvalidTokenError
  | InsufficientScopeError
deriving DecidableEq

/-- The `error` class attribute (the RFC 6749 / RFC 6750 error code) of each
OAuth error class, following Python attribute inheritance: a class without
its own `error` inherits the value of its superclass. -/
def OAuthErrorClass.error : OAuthErrorClass → String
  | .OAuthError => "invalid_request"
  | .InvalidClientError => "invalid_client"
  | .InvalidGrantError => "invalid_grant"
  | .UnsupportedGrantTypeError => "unsupported_grant_type"
  | .OAuthBearerError => "invalid_request"
  | .InvalidRequestError => "invalid_request"
  | .InvalidTokenError => "invalid_token"
  | .InsufficientScopeError => "insufficient_scope"

/-- Whether the class is `OAuthBearerError` or one of its subclasses: the
errors representable as a WWW-Authenticate challenge per the class
docstring. -/
def OAuthErrorClass.isBearer : OAuthErrorClass → Bool
  | .OAuthBearerError => true
  | .InvalidRequestError => true
  | .InvalidTokenError => true
  | .InsufficientScopeError => true
  | _ => false

/-- The `status_code` attribute of each OAuth error class, `none` for the
classes that do not define or inherit one.  `OAuthBearerError` introduces
the attribute with default 400; `InvalidTokenError` and
`InsufficientScopeError` override it. -/
def OAuthErrorClass.statusCode : OAuthErrorClass → Option Nat
  | .OAuthBearerError => some HTTP_400_BAD_REQUEST
  | .InvalidRequestError => some HTTP_400_BAD_REQUEST
  | .InvalidTokenError => some HTTP_401_UNAUTHORIZED
  | .InsufficientScopeError => some HTTP_403_FORBIDDEN
  | _ => none

/-! ## Theorems for C4 and C5 -/

/-- C4: every validation-error subkind named in the spec
(duplicate_token_name, invalid_cursor, invalid_expires, invalid_ip_address,
invalid_scopes, invalid_delegate_to, invalid_return_url) maps to HTTP status
422, and each serializes to a detail dictionary whose keys are exactly
`loc` (a two-element [area, field] list), `msg` and `type`, with `type`
equal to the subkind name. -/
theorem validation_subkinds_422_and_detail_shape (message field : String) :
    ((DuplicateTokenNameError message).status_code = 422 ∧
      (InvalidCursorError message).status_code = 422 ∧
      (InvalidExpiresError message).status_code = 422 ∧
      (InvalidIPAddressError message).status_code = 422 ∧
      (InvalidScopesError message).status_code = 422 ∧
      (InvalidDelegateToError message).status_code = 422 ∧
      (InvalidReturnURLError message field).status_code = 422) ∧
    (∀ e : ValidationError,
      e.to_dict.map Prod.fst = ["loc", "msg", "type"] ∧
      e.to_dict.lookup "loc" = some (Sum.inl [e.location.value, e.field]) ∧
      e.to_dict.lookup "msg" = some (Sum.inr e.message) ∧
      e.to_dict.lookup "type" = some (Sum.inr e.error)) ∧
    ((DuplicateTokenNameError message).error = "duplicate_token_name" ∧
      (InvalidCursorError message).error = "invalid_cursor" ∧
      (InvalidExpiresError message).error = "invalid_expires" ∧
      (InvalidIPAddressError message).error = "invalid_ip_address" ∧
      (InvalidScopesError message).error = "invalid_scopes" ∧
      (InvalidDelegateToError message).error = "invalid_delegate_to" ∧
      (InvalidReturnURLError message field).error = "invalid_return_url") := by
  refine ⟨⟨rfl, rfl, rfl, rfl, rfl, rfl, rfl⟩, ?_, rfl, rfl, rfl, rfl, rfl, rfl, rfl⟩
  intro e
  refine ⟨rfl, ?_, ?_, ?_⟩ <;> simp [ValidationError.to_dict, List.lookup]

/-- C5: the three bearer error kinds carry exactly the status codes
invalid_request 400, invalid_token 401, insufficient_scope 403, each is
representable as a WWW-Authenticate challenge (a member of the
`OAuthBearerError` family), and the bearer family members are the only
OAuth error classes with an attached status code. -/
theorem bearer_errors_status_codes :
    OAuthErrorClass.InvalidRequestError.statusCode = some 400 ∧
    OAuthErrorClass.InvalidTokenError.statusCode = some 401 ∧
    OAuthErrorClass.InsufficientScopeError.statusCode = some 403 ∧
    OAuthErrorClass.InvalidRequestError.error = "invalid_request" ∧
    OAuthErrorClass.InvalidTokenError.error = "invalid_token" ∧
    OAuthErrorClass.InsufficientScopeError.error = "insufficient_scope" ∧
    OAuthErrorClass.InvalidRequestError.isBearer = true ∧
    OAuthErrorClass.InvalidTokenError.isBearer = true ∧
    OAuthErrorClass.InsufficientScopeError.isBearer = true ∧
    (∀ c : OAuthErrorClass, c.statusCode.isSome = c.isBearer) := by
  refine ⟨rfl, rfl, rfl, rfl, rfl, rfl, rfl, rfl, rfl, ?_⟩
  intro c
  cases c <;> rfl

/-! ## Embedding of src/gafaelfawr/constants.py (C8)

`ACTOR_REGEX = "^(?:<bootstrap>|[a-z_][a-z0-9._-]+)$"` and
`USERNAME_REGEX = "^[a-z_][a-z0-9._-]*$"`, compiled to executable character
predicates.  Both regexes are anchored at both ends, so matching is over the
whole string. -/

/-- The character class `[a-z]`. -/
def isLowercaseLetter (c : Char) : Bool := 'a' ≤ c && c ≤ 'z'

/-- The character class `[0-9]`. -/
def isAsciiDigit (c : Char) : Bool := '0' ≤ c && c ≤ '9'

/-- The character class `[a-z_]`: the first character of a username. -/
def usernameStartChar (c : Char) : Bool := isLowercaseLetter c || c == '_'

/-- The character class `[a-z0-9._-]`: a later character of a username. -/
def usernameContinueChar (c : Char) : Bool :=
  isLowercaseLetter c || isAsciiDigit c || c == '.' || c == '_' || c == '-'

/-- Full match of `USERNAME_REGEX = "^[a-z_][a-z0-9._-]*$"`. -/
def matchesUsernameRegex (s : String) : Bool :=
  match s.data with
  | [] => false
  | c :: rest => usernameStartChar c && rest.all usernameContinueChar

/-- Full match of `ACTOR_REGEX = "^(?:<bootstrap>|[a-z_][a-z0-9._-]+)$"`.
The second alternative requires at least one character after the start
character (`+`, not `*`). -/
def matchesActorRegex (s : String) : Bool :=
  s == "<bootstrap>" ||
    (match s.data with
     | c :: c2 :: rest =>
       usernameStartChar c && usernameContinueChar c2 &&
         rest.all usernameContinueChar
     | _ => false)

/-! ## Theorems for C8 -/

/-- C8 counterexample: the single-character string "a" matches
`USERNAME_REGEX` and has length at most 64, yet `ACTOR_REGEX` rejects it,
because the second alternative of `ACTOR_REGEX` uses `+` and so requires at
least two characters.  Hence the language of `ACTOR_REGEX` is not the
username language extended with `<bootstrap>`. -/
theorem actor_regex_counterexample :
    matchesUsernameRegex "a" = true ∧ "a".length ≤ 64 ∧
      matchesActorRegex "a" = false := by
  refine ⟨by decide, by decide, by decide⟩

/-- C8 (amended): every string matching the username regex
`^[a-z_][a-z0-9._-]*$` with length at least 2 (and at most 64) is accepted
by `ACTOR_REGEX`, and the only strings accepted by `ACTOR_REGEX` beyond
those matching the username regex is the literal `<bootstrap>`.
Single-character usernames are rejected by `ACTOR_REGEX`. -/
theorem actor_regex_language (s : String) :
    (matchesUsernameRegex s = true → 2 ≤ s.length → s.length ≤ 64 →
      matchesActorRegex s = true) ∧
    (matchesActorRegex s = true →
      s = "<bootstrap>" ∨ matchesUsernameRegex s = true) := by
  obtain ⟨l⟩ := s
  constructor
  · intro hu hlen _
    match l with
    | [] => simp [matchesUsernameRegex] at hu
    | [c] => simp [String.length] at hlen
    | c :: c2 :: rest =>
      simp only [matchesUsernameRegex, List.all_cons, Bool.and_eq_true] at hu
      simp only [matchesActorRegex, Bool.or_eq_true]
      right
      simp only [Bool.and_eq_true]
      exact ⟨⟨hu.1, hu.2.1⟩, hu.2.2⟩
  · intro ha
    simp only [matchesActorRegex, Bool.or_eq_true, beq_iff_eq] at ha
    rcases ha with ha | ha
    · exact Or.inl ha
    · right
      match l with
      | [] => simp at ha
      | [c] => simp at ha
      | c :: c2 :: rest =>
        simp only [Bool.and_eq_true] at ha
        simp only [matchesUsernameRegex, List.all_cons, Bool.and_eq_true]
        exact ⟨ha.1.1, ha.1.2, ha.2⟩

/-! ## Embedding of src/gafaelfawr/models/link.py (C10)

`_LINK_REGEX = r' *<(?P<target>[^>]+)>; rel="(?P<type>[^"]+)"'` applied with
`re.match` (anchored at the start only, trailing text ignored).  Both
character classes exclude the closing delimiter, so greedy matching stops at
the first occurrence of the delimiter and the match is deterministic. -/

/-- Leading `' '*` of the regex: drop leading space characters. -/
def dropLeadingSpaces : List Char → List Char
  | ' ' :: rest => dropLeadingSpaces rest
  | l => l

/-- Split a character list at the first occurrence of `c`, consuming it:
`some (before, after)`, or `none` when `c` does not occur.  Models
`[^c]*c` of the regex. -/
def splitAtChar (c : Char) : List Char → Option (List Char × List Char)
  | [] => none
  | x :: rest =>
    if x = c then some ([], rest)
    else
      match splitAtChar c rest with
      | some p => some (x :: p.1, p.2)
      | none => none

/-- `re.match(_LINK_REGEX, element)`: `some (target, type)` when the element
matches, `none` otherwise.  The target and the rel type must each be
nonempty (`+` in both groups); anything after the closing quote is
ignored, as `re.match` requires only a prefix match. -/
def matchLinkElement (element : String) : Option (String × String) :=
  match dropLeadingSpaces element.data with
  | '<' :: afterOpen =>
    match splitAtChar '>' afterOpen with
    | some (target, afterTarget) =>
      if target = [] then none
      else
        match afterTarget with
        | ';' :: ' ' :: 'r' :: 'e' :: 'l' :: '=' :: '\"' :: afterRel =>
          match splitAtChar '\"' afterRel with
          | some (ty, _) =>
            if ty = [] then none else some (String.mk target, String.mk ty)
          | none => none
        | _ => none
    | none => none
  | _ => none

/-- Helper for `splitOnComma`: `acc` holds the characters of the current
piece in reverse order. -/
def splitOnCommaAux : List Char → List Char → List String
  | [], acc => [String.mk acc.reverse]
  | c :: rest, acc =>
    if c = ',' then String.mk acc.reverse :: splitOnCommaAux rest []
    else splitOnCommaAux rest (c :: acc)

/-- Python `header.split(",")`: split at every comma, keeping empty pieces. -/
def splitOnComma (s : String) : List String :=
  splitOnCommaAux s.data []

/-- `LinkData`: the data returned in an RFC 8288 Link header. -/
structure LinkData where
  prev_url : Option String
  next_url : Option String
  first_url : Option String
deriving DecidableEq

/-- Python dict assignment `d[k] = v`: overwrite the existing key or append. -/
def dictSet (d : List (String × String)) (k v : String) : List (String × String) :=
  match d with
  | [] => [(k, v)]
  | (k0, v0) :: rest => if k0 = k then (k, v) :: rest else (k0, v0) :: dictSet rest k v

/-- Python `d.get(k)`. -/
def dictGet (d : List (String × String)) (k : String) : Option String :=
  match d with
  | [] => none
  | (k0, v0) :: rest => if k0 = k then some v0 else dictGet rest k

/-- The loop body of `LinkData.from_header`: process one comma-separated
element, recording its target under its rel type when the element matches
the regex and the rel type is one of prev, next, first. -/
def recordLinkElement (links : List (String × String)) (element : String) :
    List (String × String) :=
  match matchLinkElement element with
  | some (target, ty) =>
    if ty = "prev" ∨ ty = "next" ∨ ty = "first" then dictSet links ty target
    else links
  | none => links

/-- `LinkData.from_header(header)`: parse an RFC 8288 Link header with
pagination URLs.  `if header:` is Python truthiness, false for `None` and
for the empty string. -/
def LinkData.from_header (header : Option String) : LinkData :=
  let links : List (String × String) :=
    match header with
    | none => []
    | some h =>
      if h = "" then []
      else (splitOnComma h).foldl recordLinkElement []
  { prev_url := dictGet links "prev",
    next_url := dictGet links "next",
    first_url := dictGet links "first" }

/-! ## Theorems for C10 -/

/-- The first of two options, or the second when the first is `none`. -/
def orOption (a b : Option String) : Option String :=
  match a with
  | some t => some t
  | none => b

/-- Specification-side reading of the parse: the target of the LAST
comma-separated element whose regex match has rel type exactly `rel`
(later elements overwrite earlier ones in the dict). -/
def lastRelTarget (rel : String) : List String → Option String
  | [] => none
  | element :: rest =>
    orOption (lastRelTarget rel rest)
      (match matchLinkElement element with
       | some (target, ty) => if ty = rel then some target else none
       | none => none)

/-- Specification-side reading of the element list of a header value. -/
def headerElements : Option String → List String
  | none => []
  | some h => if h = "" then [] else splitOnComma h

theorem dictGet_dictSet (d : List (String × String)) (k v r : String) :
    dictGet (dictSet d k v) r = if k = r then some v else dictGet d r := by
  induction d with
  | nil => simp [dictSet, dictGet]
  | cons head rest ih =>
    obtain ⟨k0, v0⟩ := head
    by_cases h0 : k0 = k
    · subst h0
      by_cases hr : k0 = r <;> simp [dictSet, dictGet, hr]
    · simp only [dictSet, if_neg h0, dictGet]
      by_cases hr : k0 = r
      · subst hr
        have : ¬ k = k0 := fun h => h0 h.symm
        simp [this]
      · simp [hr, ih]

theorem dictGet_foldl_recordLinkElement (elements : List String)
    (links : List (String × String)) (r : String)
    (hr : r = "prev" ∨ r = "next" ∨ r = "first") :
    dictGet (elements.foldl recordLinkElement links) r =
      orOption (lastRelTarget r elements) (dictGet links r) := by
  induction elements generalizing links with
  | nil => simp [lastRelTarget, orOption]
  | cons element rest ih =>
    simp only [List.foldl_cons, lastRelTarget]
    rw [ih]
    have hstep : dictGet (recordLinkElement links element) r =
        orOption
          (match matchLinkElement element with
           | some (target, ty) => if ty = r then some target else none
           | none => none)
          (dictGet links r) := by
      unfold recordLinkElement
      match matchLinkElement element with
      | none => simp [orOption]
      | some (target, ty) =>
        by_cases hty : ty = "prev" ∨ ty = "next" ∨ ty = "first"
        · simp only [if_pos hty, dictGet_dictSet]
          by_cases htr : ty = r
          · simp [htr, orOption]
          · simp [htr, orOption]
        · have htr : ¬ ty = r := by
            intro h
            exact hty (h ▸ hr)
          simp [if_neg hty, if_neg htr, orOption]
    rw [hstep]
    match lastRelTarget r rest with
    | some t => simp [orOption]
    | none => simp [orOption]

/-- C10: `LinkData.from_header` is total on optional header strings.  For
`None` or the empty string every field is `None`; in general the three
fields hold exactly the targets of the last comma-separated element of the
regex shape whose rel type is `prev`, `next` and `first` respectively, and
every element of any other rel type or shape is ignored. -/
theorem from_header_characterization (header : Option String) :
    LinkData.from_header header =
      { prev_url := lastRelTarget "prev" (headerElements header),
        next_url := lastRelTarget "next" (headerElements header),
        first_url := lastRelTarget "first" (headerElements header) } ∧
    LinkData.from_header none = ⟨none, none, none⟩ ∧
    LinkData.from_header (some "") = ⟨none, none, none⟩ := by
  refine ⟨?_, rfl, rfl⟩
  unfold LinkData.from_header headerElements
  match header with
  | none => rfl
  | some h =>
    by_cases hempty : h = ""
    · simp [hempty, dictGet, lastRelTarget]
    · simp only [if_neg hempty]
      have get3 : ∀ r : String, r = "prev" ∨ r = "next" ∨ r = "first" →
          dictGet ((splitOnComma h).foldl recordLinkElement []) r =
            lastRelTarget r (splitOnComma h) := by
        intro r hr
        rw [dictGet_foldl_recordLinkElement _ _ _ hr]
        match lastRelTarget r (splitOnComma h) with
        | some t => simp [orOption]
        | none => simp [orOption, dictGet]
      have hp := get3 "prev" (Or.inl rfl)
      have hn := get3 "next" (Or.inr (Or.inl rfl))
      have hf := get3 "first" (Or.inr (Or.inr rfl))
      simp only [LinkData.mk.injEq]
      exact ⟨hp, hn, hf⟩

/-! ## The /auth authorize service (C1, C2)

The handler and service code for /auth is not among the provided source
files (only tests/handlers/auth_logging_test.py is), so the per-request
state machine of spec section 4.4 is modelled from the specification. -/

/-- Modelled from the spec: the `satisfy` query parameter of /auth, one of
`all` and `any` (the /auth handler code is not among the provided source
files). -/
inductive Satisfy where
  | all
  | any
deriving DecidableEq

/-- Modelled from the spec: the status and optional error type of a /auth
response (the /auth handler code is not among the provided source files). -/
structure AuthResponse where
  status : Nat
  error : Option String
deriving DecidableEq

/-- Modelled from the spec: "Compute match between required scopes and
token scopes under `satisfy`" — all required scopes present under
`satisfy=all`, at least one under `satisfy=any`. -/
def scopesSatisfy (satisfy : Satisfy) (required tokenScopes : List String) : Bool :=
  match satisfy with
  | Satisfy.all => required.all (fun scope => tokenScopes.contains scope)
  | Satisfy.any => required.any (fun scope => tokenScopes.contains scope)

/-- Modelled from the spec: step 4 (Authorize) of the /auth state machine —
success continues to a 200 response, "failure → 403 with
`error="insufficient_scope"`". -/
def checkScopes (satisfy : Satisfy) (required tokenScopes : List String) :
    AuthResponse :=
  if scopesSatisfy satisfy required tokenScopes then { status := 200, error := none }
  else { status := 403, error := some "insufficient_scope" }

/-- Modelled from the spec: steps 3-4 of the /auth state machine for a
token already extracted — resolve it to its scope set (`resolve` stands for
the token service; `none` for not found or expired, yielding 401
`invalid_token`) and then authorize. -/
def authorizeToken (resolve : String → Option (List String)) (token : String)
    (satisfy : Satisfy) (required : List String) : AuthResponse :=
  match resolve token with
  | none => { status := 401, error := some "invalid_token" }
  | some tokenScopes => checkScopes satisfy required tokenScopes

/-- Modelled from the spec: token extraction from HTTP Basic credentials
`u:p` — "where either `u` or `p` is `x-oauth-basic`, the other field is
treated as the token; both-literal and neither-literal cases yield 401"
(modelled as extraction failure). -/
def tokenFromBasicAuth (username password : String) : Option String :=
  if username = "x-oauth-basic" then
    if password = "x-oauth-basic" then none else some password
  else if password = "x-oauth-basic" then some username
  else none

/-- Modelled from the spec: the /auth state machine for a request carrying
HTTP Basic credentials — step 1 extraction (absent token → 401 with a
WWW-Authenticate challenge) followed by the bearer-token path. -/
def authorizeBasic (resolve : String → Option (List String))
    (username password : String) (satisfy : Satisfy) (required : List String) :
    AuthResponse :=
  match tokenFromBasicAuth username password with
  | none => { status := 401, error := none }
  | some token => authorizeToken resolve token satisfy required

/-! ## Theorems for C1 and C2 -/

/-- C1: for every /auth request carrying a valid token with scope set S and
required scopes R, the response is 200 if and only if (satisfy=all and
R ⊆ S) or (satisfy=any and R ∩ S is nonempty); otherwise the response is
403 with error type insufficient_scope. -/
theorem auth_scope_check (satisfy : Satisfy) (required tokenScopes : List String) :
    (checkScopes satisfy required tokenScopes = { status := 200, error := none } ↔
      (satisfy = Satisfy.all ∧ ∀ r ∈ required, r ∈ tokenScopes) ∨
      (satisfy = Satisfy.any ∧ ∃ r ∈ required, r ∈ tokenScopes)) ∧
    (checkScopes satisfy required tokenScopes = { status := 200, error := none } ∨
      checkScopes satisfy required tokenScopes =
        { status := 403, error := some "insufficient_scope" }) := by
  have hcond : scopesSatisfy satisfy required tokenScopes = true ↔
      (satisfy = Satisfy.all ∧ ∀ r ∈ required, r ∈ tokenScopes) ∨
      (satisfy = Satisfy.any ∧ ∃ r ∈ required, r ∈ tokenScopes) := by
    cases satisfy with
    | all =>
      simp [scopesSatisfy, List.all_eq_true, List.elem_iff]
    | any =>
      simp [scopesSatisfy, List.any_eq_true, List.elem_iff]
  constructor
  · unfold checkScopes
    by_cases hs : scopesSatisfy satisfy required tokenScopes = true
    · simp only [if_pos hs]
      simp only [hcond] at hs
      simp [hs]
    · simp only [Bool.not_eq_true] at hs
      simp only [hs, Bool.false_eq_true, if_false]
      constructor
      · intro h
        exact absurd h (by simp)
      · intro h
        rw [← hcond] at h
        simp [hs] at h
  · unfold checkScopes
    by_cases hs : scopesSatisfy satisfy required tokenScopes = true
    · simp [hs]
    · simp only [Bool.not_eq_true] at hs
      simp [hs]

/-- C2: for every /auth request authenticated with HTTP Basic credentials
u:p, if exactly one of u, p is the literal x-oauth-basic then the other
field is parsed as the token and authorization proceeds as for a bearer
token; if both or neither field is the literal, the response is 401. -/
theorem auth_basic_extraction (resolve : String → Option (List String))
    (username password : String) (satisfy : Satisfy) (required : List String) :
    (username = "x-oauth-basic" → password ≠ "x-oauth-basic" →
      authorizeBasic resolve username password satisfy required =
        authorizeToken resolve password satisfy required) ∧
    (password = "x-oauth-basic" → username ≠ "x-oauth-basic" →
      authorizeBasic resolve username password satisfy required =
        authorizeToken resolve username satisfy required) ∧
    ((username = "x-oauth-basic" ↔ password = "x-oauth-basic") →
      (authorizeBasic resolve username password satisfy required).status = 401) := by
  refine ⟨?_, ?_, ?_⟩
  · intro hu hp
    simp [authorizeBasic, tokenFromBasicAuth, hu, hp]
  · intro hp hu
    simp [authorizeBasic, tokenFromBasicAuth, hu, hp]
  · intro hiff
    by_cases hu : username = "x-oauth-basic"
    · have hp := hiff.mp hu
      simp [authorizeBasic, tokenFromBasicAuth, hu, hp]
    · have hp : ¬ password = "x-oauth-basic" := fun h => hu (hiff.mpr h)
      simp [authorizeBasic, tokenFromBasicAuth, hu, hp]

/-! ## The admin service (C3)

The admin service code is not among the provided source files (only
tests/services/admin_test.py is); modelled from spec sections 3 (Admin),
7 (permission_denied) and 8 (scenario 6). -/

/-- Modelled from the spec: `add_admin` grants a username blanket admin
authority by adding it to the admin list (the admin service code is not
among the provided source files).  Usernames are unique in the list. -/
def add_admin (admins : List String) (username : String) : List String :=
  if admins.contains username then admins else admins ++ [username]

/-- Modelled from the spec: `delete_admin` — "self-deletion of the last
admin" is refused with `PermissionDeniedError` (403 permission_denied,
message "cannot delete last admin"), leaving the list unchanged; otherwise
the username is removed. -/
def delete_admin (admins : List String) (username : String) :
    Except String (List String) :=
  if admins = [username] then Except.error "cannot delete last admin"
  else Except.ok (admins.erase username)

/-! ## Theorem for C3 -/

/-- C3: for every admin list with exactly one member, `delete_admin` of
that member fails with the permission-denied error (so the admin list is
unchanged); the same deletion succeeds once a second admin has been added;
and no successful deletion from a nonempty admin list ever leaves the admin
set empty. -/
theorem delete_admin_never_empties (admins : List String) (a b : String) :
    delete_admin [a] a = Except.error "cannot delete last admin" ∧
    (a ≠ b → delete_admin (add_admin [a] b) a = Except.ok [b]) ∧
    (admins ≠ [] → ∀ result, delete_admin admins a = Except.ok result →
      result ≠ []) := by
  refine ⟨by simp [delete_admin], ?_, ?_⟩
  · intro hab
    have hb : ¬ ([a].contains b = true) := by
      simp [List.elem_iff]
      exact fun h => hab h.symm
    have hadd : add_admin [a] b = [a, b] := by
      simp only [add_admin, hb, Bool.false_eq_true, if_false]
      rfl
    rw [hadd]
    have hne : ¬ ([a, b] = [a]) := by simp
    simp only [delete_admin, if_neg hne]
    simp [List.erase_cons]
  · intro hne result hok
    by_cases hlast : admins = [a]
    · simp [delete_admin, hlast] at hok
    · simp only [delete_admin, if_neg hlast, Except.ok.injEq] at hok
      subst hok
      by_cases hmem : a ∈ admins
      · intro herase
        have h2 : 2 ≤ admins.length := by
          rcases admins with _ | ⟨x, _ | ⟨y, rest⟩⟩
          · exact absurd rfl hne
          · have hxa : x = a := by
              have := hmem
              simp at this
              exact this.symm
            exact absurd (by rw [hxa]) hlast
          · simp [Nat.succ_le_succ, Nat.le_add_left]
        have hlen := List.length_erase_of_mem hmem
        rw [herase] at hlen
        simp at hlen
        omega
      · rw [List.erase_of_not_mem hmem]
        exact hne

/-! ## Request-logging context: client IP and auth_uri (C6, C7)

The middleware and logging code is not among the provided source files
(src/jwt_authorizer/app.py merely installs an X-Forwarded-For middleware
from an external library, and only tests/handlers/auth_logging_test.py
exercises the behavior); modelled from spec section 4.4. -/

/-- Modelled from the spec: "Client IP comes from the left-most entry of
`X-Forwarded-For` that is not in the configured proxy CIDR list", falling
back to the connection peer when the header is absent.  `isProxy` stands
for membership in the configured proxy CIDR list. -/
def clientIpForLogging (isProxy : String → Bool)
    (forwardedFor : Option (List String)) (peer : String) : String :=
  match forwardedFor with
  | none => peer
  | some entries =>
    match entries.find? (fun entry => ! isProxy entry) with
    | some entry => entry
    | none => peer

/-- Modelled from the spec: "Observed `auth_uri` for logging is taken from
`X-Original-URI`, then `X-Original-URL`, then `"NONE"`". -/
def authUriForLogging (xOriginalUri xOriginalUrl : Option String) : String :=
  match xOriginalUri with
  | some uri => uri
  | none =>
    match xOriginalUrl with
    | some url => url
    | none => "NONE"

/-! ## Theorems for C6 and C7 -/

/-- C6: the client IP recorded for logging is the left-most entry of
X-Forwarded-For that is not contained in the configured proxy CIDR list,
falling back to the connection peer when the header is absent.  The last
conjunct replays the chained-header test case: the right entry 10.0.0.1 is
a proxy, so the left entry is logged. -/
theorem client_ip_leftmost_non_proxy (isProxy : String → Bool) (peer : String)
    (front : List String) (entry : String) (rest : List String) :
    clientIpForLogging isProxy none peer = peer ∧
    ((∀ p ∈ front, isProxy p = true) → isProxy entry = false →
      clientIpForLogging isProxy (some (front ++ entry :: rest)) peer = entry) ∧
    clientIpForLogging (fun ip => ip == "10.0.0.1")
        (some ["2001:db8:85a3:8d3:1319:8a2e:370:734", "10.0.0.1"])
        "127.0.0.1" = "2001:db8:85a3:8d3:1319:8a2e:370:734" := by
  refine ⟨rfl, ?_, by decide⟩
  intro hfront hentry
  have hfind : (front ++ entry :: rest).find? (fun e => ! isProxy e) = some entry := by
    induction front with
    | nil => simp [List.find?_cons, hentry]
    | cons p front ih =>
      have hp : isProxy p = true := hfront p (by simp)
      have hfront2 : ∀ q ∈ front, isProxy q = true :=
        fun q hq => hfront q (by simp [hq])
      simp only [List.cons_append, List.find?_cons, hp, Bool.not_true]
      exact ih hfront2
  simp [clientIpForLogging, hfind]

/-- C7: the auth_uri recorded for logging is the value of X-Original-URI
when that header is present, otherwise the value of X-Original-URL when
present, otherwise the literal "NONE"; when both headers are present,
X-Original-URI wins. -/
theorem auth_uri_precedence (uri url : String) (anyUrl : Option String) :
    authUriForLogging (some uri) anyUrl = uri ∧
    authUriForLogging none (some url) = url ∧
    authUriForLogging none none = "NONE" := by
  exact ⟨rfl, rfl, rfl⟩

/-! ## The InfluxDB token issuer (C9)

The issuer and handler code is not among the provided source files (only
tests/handlers/influxdb_test.py is); modelled from spec sections 4 and 6:
"InfluxDB token. JWT, alg HS256, claims {username, exp, iat}; username
optionally forced to a configured constant." -/

/-- A JWT claim value: string or numeric date. -/
inductive ClaimValue where
  | str (value : String)
  | num (value : Nat)
deriving DecidableEq

/-- Modelled from the spec: the InfluxDB issuer configuration —
`issuer.influxdb_username` optionally forces the username claim to a
constant. -/
structure InfluxDBIssuerConfig where
  influxdb_username : Option String

/-- Modelled from the spec: mint an InfluxDB JWT — algorithm HS256, claim
set exactly {username, exp, iat}, username forced to the configured
constant when one is set, exp equal to the session token expiry, iat the
issuance time. -/
def issue_influxdb_token (config : InfluxDBIssuerConfig) (tokenUsername : String)
    (tokenExpires now : Nat) : String × List (String × ClaimValue) :=
  let username :=
    match config.influxdb_username with
    | some forced => forced
    | none => tokenUsername
  ("HS256",
   [("username", ClaimValue.str username),
    ("exp", ClaimValue.num tokenExpires),
    ("iat", ClaimValue.num now)])

/-- Modelled from the spec: GET /auth/tokens/influxdb/new for an
authenticated session token — 404 `not_supported` when InfluxDB issuance is
not configured, otherwise 200 with the minted JWT. -/
def influxdb_new_handler (config : Option InfluxDBIssuerConfig)
    (tokenUsername : String) (tokenExpires now : Nat) :
    Except (Nat × String) (Nat × String × List (String × ClaimValue)) :=
  match config with
  | none => Except.error (404, "not_supported")
  | some c =>
    let minted := issue_influxdb_token c tokenUsername tokenExpires now
    Except.ok (200, minted.1, minted.2)

/-! ## Theorem for C9 -/

/-- C9: for every authenticated GET /auth/tokens/influxdb/new with InfluxDB
issuance configured, the response is 200 with a JWT of algorithm HS256
whose claim set is exactly {username, exp, iat}, where username is the
authenticated user's username unless the configuration forces a constant
(in which case it is that constant), and exp equals the session token's
expiry. -/
theorem influxdb_token_shape (c : InfluxDBIssuerConfig) (tokenUsername : String)
    (tokenExpires now : Nat) :
    ∃ claims,
      influxdb_new_handler (some c) tokenUsername tokenExpires now =
        Except.ok (200, "HS256", claims) ∧
      claims.map Prod.fst = ["username", "exp", "iat"] ∧
      claims.lookup "exp" = some (ClaimValue.num tokenExpires) ∧
      claims.lookup "iat" = some (ClaimValue.num now) ∧
      (c.influxdb_username = none →
        claims.lookup "username" = some (ClaimValue.str tokenUsername)) ∧
      (∀ forced, c.influxdb_username = some forced →
        claims.lookup "username" = some (ClaimValue.str forced)) := by
  refine ⟨_, rfl, rfl, ?_, ?_, ?_, ?_⟩
  · simp [List.lookup]
  · simp [List.lookup]
  · intro hnone
    simp [issue_influxdb_token, hnone, List.lookup]
  · intro forced hforced
    simp [issue_influxdb_token, hforced, List.lookup]

/-! ## Witnesses: the theorems above applied at concrete inputs -/

/-- C1 witness: the success scenario of the /auth tests — scope exec:admin
required, token scopes {exec:admin}, satisfy=all — yields 200. -/
theorem auth_scope_check_witness :
    checkScopes Satisfy.all ["exec:admin"] ["exec:admin"] =
      { status := 200, error := none } :=
  (auth_scope_check Satisfy.all ["exec:admin"] ["exec:admin"]).1.mpr
    (Or.inl ⟨rfl, by decide⟩)

/-- C2 witness: with the literal in the password field the bearer path is
taken on the username field; with the literal in both fields the response
is 401. -/
theorem auth_basic_extraction_witness :
    authorizeBasic (fun _ => some ["exec:admin"]) "gt-key.secret" "x-oauth-basic"
        Satisfy.all ["exec:admin"] =
      authorizeToken (fun _ => some ["exec:admin"]) "gt-key.secret"
        Satisfy.all ["exec:admin"] ∧
    (authorizeBasic (fun _ => some ["exec:admin"]) "x-oauth-basic" "x-oauth-basic"
        Satisfy.all ["exec:admin"]).status = 401 :=
  ⟨(auth_basic_extraction (fun _ => some ["exec:admin"]) "gt-key.secret"
      "x-oauth-basic" Satisfy.all ["exec:admin"]).2.1 rfl (by decide),
   (auth_basic_extraction (fun _ => some ["exec:admin"]) "x-oauth-basic"
      "x-oauth-basic" Satisfy.all ["exec:admin"]).2.2 Iff.rfl⟩

/-- C3 witness: the admin-test scenario — deleting the only admin `admin`
fails, and succeeds once `example` has been added. -/
theorem delete_admin_never_empties_witness :
    delete_admin ["admin"] "admin" = Except.error "cannot delete last admin" ∧
    delete_admin (add_admin ["admin"] "example") "admin" = Except.ok ["example"] :=
  ⟨(delete_admin_never_empties [] "admin" "example").1,
   (delete_admin_never_empties [] "admin" "example").2.1 (by decide)⟩

/-- C6 witness: with proxy list {10.0.0.1}, the header [10.0.0.1, 8.8.8.8]
yields the left-most non-proxy entry 8.8.8.8. -/
theorem client_ip_witness :
    clientIpForLogging (fun ip => ip == "10.0.0.1")
      (some ["10.0.0.1", "8.8.8.8"]) "127.0.0.1" = "8.8.8.8" :=
  (client_ip_leftmost_non_proxy (fun ip => ip == "10.0.0.1") "127.0.0.1"
    ["10.0.0.1"] "8.8.8.8" []).2.1 (by decide) (by decide)

/-- C8 witness: the two-character username "ab" is accepted by both
regexes, instantiating both directions of the amended language theorem. -/
theorem actor_regex_language_witness :
    matchesActorRegex "ab" = true ∧
      ("ab" = "<bootstrap>" ∨ matchesUsernameRegex "ab" = true) :=
  ⟨(actor_regex_language "ab").1 (by decide) (by decide) (by decide),
   (actor_regex_language "ab").2
     ((actor_regex_language "ab").1 (by decide) (by decide) (by decide))⟩

/-- C9 witness: the issuance theorem at a concrete configuration with no
forced username, user rachel and expiry 1000. -/
theorem influxdb_token_shape_witness :
    ∃ claims,
      influxdb_new_handler (some ⟨none⟩) "rachel" 1000 900 =
        Except.ok (200, "HS256", claims) ∧
      claims.map Prod.fst = ["username", "exp", "iat"] ∧
      claims.lookup "exp" = some (ClaimValue.num 1000) ∧
      claims.lookup "iat" = some (ClaimValue.num 900) ∧
      ((⟨none⟩ : InfluxDBIssuerConfig).influxdb_username = none →
        claims.lookup "username" = some (ClaimValue.str "rachel")) ∧
      (∀ forced, (⟨none⟩ : InfluxDBIssuerConfig).influxdb_username = some forced →
        claims.lookup "username" = some (ClaimValue.str forced)) :=
  influxdb_token_shape ⟨none⟩ "rachel" 1000 900

end Gafaelfawr
